import Mathlib

/-!
Verification development for the cliffcrown greeter core (src/client.rs,
src/gui.rs): the greetd protocol typestate client, the session driver
(`ClientManager::run`), and the interaction bridge (`UiManager::run`)
with its shared UI cells read by `draw_ui`.

The transport handle (`UnixStream`) is modelled as an abstract stream
identifier.  Socket writes are modelled by an oracle
`write : Request → Option CodecError` giving the outcome of writing a
given request (`none` = success), and socket reads by explicit
`Except CodecError Response` outcomes.  Each write-performing operation
returns, alongside its result, the request value it attempted to write
(the observable wire traffic), exactly the request the source constructs.
-/

namespace Cliffcrown

/-- Model of `greetd_ipc::codec::Error`, kept abstract: only its identity matters. -/
inductive CodecError
  | mk (msg : String)
  deriving Repr, DecidableEq

/-- Model of `std::io::Error`, kept abstract. -/
inductive IOError
  | mk (msg : String)
  deriving Repr, DecidableEq

/-- Model of `ClientError` from src/client.rs lines 10-18. -/
inductive ClientError
  | MissingEnvVar
  | FailedSocketConnection (e : IOError)
  | FailedSocketWrite (e : CodecError)
  | FailedSocketRead (e : CodecError)
  | GenericError (description : String)
  | AuthError (description : String)
  deriving Repr, DecidableEq

/-- Model of `AuthPrompt` from src/client.rs lines 48-53. -/
inductive AuthPrompt
  | Input (prompt : String) (secret : Bool)
  | Info (note : String)
  | Error (note : String)
  deriving Repr, DecidableEq

/-- Model of `greetd_ipc::ErrorType`: `Error` (generic) or `AuthError`. -/
inductive ErrorType
  | Error
  | AuthError
  deriving Repr, DecidableEq

/-- Model of `greetd_ipc::AuthMessageType`. -/
inductive AuthMessageType
  | Visible
  | Secret
  | Info
  | Error
  deriving Repr, DecidableEq

/-- Model of `greetd_ipc::Response`. -/
inductive Response
  | Success
  | Error (error_type : ErrorType) (description : String)
  | AuthMessage (auth_message_type : AuthMessageType) (auth_message : String)
  deriving Repr, DecidableEq

/-- Model of `greetd_ipc::Request`. -/
inductive Request
  | CreateSession (username : String)
  | PostAuthMessageResponse (response : Option String)
  | CancelSession
  | StartSession (cmd : List String) (env : List String)
  deriving Repr, DecidableEq

/-- Model of `Client` (src/client.rs lines 55-58): Unauthenticated state. -/
structure Client where
  stream : Nat
  deriving Repr, DecidableEq

/-- Model of `ActiveClient` (src/client.rs lines 60-63): SessionActive state. -/
structure ActiveClient where
  stream : Nat
  deriving Repr, DecidableEq

/-- Model of `PromptingClient` (src/client.rs lines 65-69): Prompting state. -/
structure PromptingClient where
  stream : Nat
  prompt : AuthPrompt
  deriving Repr, DecidableEq

/-- Model of `SuccessfulClient` (src/client.rs lines 71-74): Authenticated state. -/
structure SuccessfulClient where
  stream : Nat
  deriving Repr, DecidableEq

/-- The outcome oracle for socket writes: `write r`, the result of
`r.write_to(&mut self.stream)`, is `none` on success and `some e` on a
codec error `e`. -/
abbrev WriteOracle := Request → Option CodecError

/-- Model of `Client::new` (src/client.rs lines 77-85).  `envVar` is the value of
the `GREETD_SOCK` environment variable (`none` when absent); `connect`
is the outcome of `UnixStream::connect` on a given path.  The second
component logs every socket path a connection was attempted on, so that
"performs no socket operation" is observable. -/
def Client.new (envVar : Option String)
    (connect : String → Except IOError Nat) :
    Except ClientError Client × List String :=
  match envVar with
  | none => (Except.error ClientError.MissingEnvVar, [])
  | some sock =>
    match connect sock with
    | Except.error e =>
      (Except.error (ClientError.FailedSocketConnection e), [sock])
    | Except.ok stream => (Except.ok { stream := stream }, [sock])

/-- Model of `Client::create_session` (src/client.rs lines 87-99).  Returns the
result together with the request it attempted to write. -/
def Client.create_session (self : Client) (username : String)
    (write : WriteOracle) :
    (Except (ClientError × Client) ActiveClient) × Request :=
  let request := Request.CreateSession username
  (match write request with
   | some e => Except.error (ClientError.FailedSocketWrite e, self)
   | none => Except.ok { stream := self.stream },
   request)

/-- Model of `ActiveClient::next` (src/client.rs lines 103-162).  `read` is the
outcome of `greetd_ipc::Response::read_from(&mut self.stream)`.
`Sum.inl` is `Either::Left` (Prompting), `Sum.inr` is `Either::Right`
(Authenticated). -/
def ActiveClient.next (self : ActiveClient)
    (read : Except CodecError Response) :
    Except (ClientError × Client) (PromptingClient ⊕ SuccessfulClient) :=
  match read with
  | Except.error e =>
    Except.error (ClientError.FailedSocketRead e, { stream := self.stream })
  | Except.ok response =>
    match response with
    | Response.Success => Except.ok (Sum.inr { stream := self.stream })
    | Response.Error error_type description =>
      Except.error
        (match error_type with
         | ErrorType.Error => ClientError.GenericError description
         | ErrorType.AuthError => ClientError.AuthError description,
         { stream := self.stream })
    | Response.AuthMessage auth_message_type auth_message =>
      Except.ok (Sum.inl
        { stream := self.stream,
          prompt :=
            match auth_message_type with
            | AuthMessageType.Visible =>
              AuthPrompt.Input auth_message false
            | AuthMessageType.Secret =>
              AuthPrompt.Input auth_message true
            | AuthMessageType.Info => AuthPrompt.Info auth_message
            | AuthMessageType.Error => AuthPrompt.Error auth_message })

/-- Model of `ActiveClient::cancel` (src/client.rs lines 164-176). -/
def ActiveClient.cancel (self : ActiveClient) (write : WriteOracle) :
    (Client × Option ClientError) × Request :=
  let request := Request.CancelSession
  (({ stream := self.stream },
    (write request).map ClientError.FailedSocketWrite),
   request)

/-- Model of `PromptingClient::next` (src/client.rs lines 180-193). -/
def PromptingClient.next (self : PromptingClient) (answer : Option String)
    (write : WriteOracle) :
    (Except (ClientError × PromptingClient) ActiveClient) × Request :=
  let request := Request.PostAuthMessageResponse answer
  (match write request with
   | some e => Except.error (ClientError.FailedSocketWrite e, self)
   | none => Except.ok { stream := self.stream },
   request)

/-- Model of `PromptingClient::cancel` (src/client.rs lines 195-207). -/
def PromptingClient.cancel (self : PromptingClient) (write : WriteOracle) :
    (Client × Option ClientError) × Request :=
  let request := Request.CancelSession
  (({ stream := self.stream },
    (write request).map ClientError.FailedSocketWrite),
   request)

/-- Model of `SuccessfulClient::finish` (src/client.rs lines 211-223). -/
def SuccessfulClient.finish (self : SuccessfulClient)
    (command : List String) (environment : List String)
    (write : WriteOracle) :
    (Except (ClientError × SuccessfulClient) Unit) × Request :=
  let request := Request.StartSession command environment
  (match write request with
   | some e => Except.error (ClientError.FailedSocketWrite e, self)
   | none => Except.ok (),
   request)

/-- The four connection states as a sum, for claims that compare which
state a failing operation hands back. -/
inductive ConnState
  | unauthenticated (c : Client)
  | sessionActive (c : ActiveClient)
  | prompting (c : PromptingClient)
  | authenticated (c : SuccessfulClient)
  deriving Repr, DecidableEq

/-- Which state a `ConnState` is in. -/
def ConnState.isUnauthenticated : ConnState → Bool
  | ConnState.unauthenticated _ => true
  | _ => false

/-- The stream held by a `ConnState`. -/
def ConnState.stream : ConnState → Nat
  | ConnState.unauthenticated c => c.stream
  | ConnState.sessionActive c => c.stream
  | ConnState.prompting c => c.stream
  | ConnState.authenticated c => c.stream

/-- The connection value handed back by a failing `create_session`
(its error component pairs the error with a `Client`). -/
def recoveredOfCreateSession
    (r : Except (ClientError × Client) ActiveClient) : Option ConnState :=
  match r with
  | Except.error (_, c) => some (ConnState.unauthenticated c)
  | Except.ok _ => none

/-- The connection value handed back by a failing `ActiveClient::next`. -/
def recoveredOfActiveNext
    (r : Except (ClientError × Client) (PromptingClient ⊕ SuccessfulClient)) :
    Option ConnState :=
  match r with
  | Except.error (_, c) => some (ConnState.unauthenticated c)
  | Except.ok _ => none

/-- The connection value handed back by a failing `PromptingClient::next`
(its error component pairs the error with a `PromptingClient`). -/
def recoveredOfPromptingNext
    (r : Except (ClientError × PromptingClient) ActiveClient) :
    Option ConnState :=
  match r with
  | Except.error (_, c) => some (ConnState.prompting c)
  | Except.ok _ => none

/-- The connection value handed back by a failing
`SuccessfulClient::finish` (paired with a `SuccessfulClient`). -/
def recoveredOfFinish
    (r : Except (ClientError × SuccessfulClient) Unit) : Option ConnState :=
  match r with
  | Except.error (_, c) => some (ConnState.authenticated c)
  | Except.ok _ => none

/-!
Section: Session driver (`ClientManager::run`, src/client.rs lines 257-291),
functional form.

The daemon's behaviour is a script: `reads` lists the outcomes of the
successive `Response::read_from` calls in `ActiveClient::next`.  The
bridge's behaviour is a script too: `answers` lists the successive
`PromptResponsePacket` answers and `command` is the command received on
the command channel.  The first output component is the list of requests
the driver attempted to write, in order; the second is `some` of the
driver's result, or `none` when a script ran dry (the driver would still
be blocked awaiting the daemon or the bridge).
-/

/-- The loop of `ClientManager::run` (src/client.rs lines 267-290),
entered with the `ActiveClient` produced by `create_session`. -/
def ClientManager.runLoop (active : ActiveClient) (write : WriteOracle)
    (reads : List (Except CodecError Response))
    (answers : List (Option String)) (command : List String) :
    List Request × Option (Except ClientError Unit) :=
  match reads with
  | [] => ([], none)
  | read :: reads' =>
    match ActiveClient.next active read with
    | Except.error (e, _) => ([], some (Except.error e))
    | Except.ok (Sum.inl prompting_client) =>
      match answers with
      | [] => ([], none)
      | answer :: answers' =>
        let step := PromptingClient.next prompting_client answer write
        match step.fst with
        | Except.error (e, _) => ([step.snd], some (Except.error e))
        | Except.ok active' =>
          let rest := ClientManager.runLoop active' write reads' answers' command
          (step.snd :: rest.fst, rest.snd)
    | Except.ok (Sum.inr successful_client) =>
      let fin := SuccessfulClient.finish successful_client command [] write
      ([fin.snd],
       some (match fin.fst with
             | Except.error (e, _) => Except.error e
             | Except.ok _ => Except.ok ()))

/-- Model of `ClientManager::run` (src/client.rs lines 257-291): receive the
username packet, `create_session`, then the loop.  Every error path
applies `.map_err(|(e, _)| e)`: only the error component survives. -/
def ClientManager.run (client : Client) (username : String)
    (write : WriteOracle)
    (reads : List (Except CodecError Response))
    (answers : List (Option String)) (command : List String) :
    List Request × Option (Except ClientError Unit) :=
  let created := Client.create_session client username write
  match created.fst with
  | Except.error (e, _) => ([created.snd], some (Except.error e))
  | Except.ok active_client =>
    let rest := ClientManager.runLoop active_client write reads answers command
    (created.snd :: rest.fst, rest.snd)

/-!
Section: UI state cells and the rendering loop (src/gui.rs).

One-shot senders (`oneshot::Sender<...>`) are modelled by channel
identifiers (`Nat`); a send is an observable `UiSend` output.
-/

/-- Model of `UiDisplayInputVisibility` (src/gui.rs lines 236-241). -/
inductive UiDisplayInputVisibility
  | NoInput (show_confirm_message : Bool)
  | Hidden
  | Shown
  deriving Repr, DecidableEq

/-- Model of `UiDisplayState` (src/gui.rs lines 243-252). -/
inductive UiDisplayState
  | Empty
  | Message (message : String) (show_input : UiDisplayInputVisibility)
  | Loading
  deriving Repr, DecidableEq

/-- Model of `UiInputState` (src/gui.rs lines 254-264); the oneshot senders are
channel identifiers. -/
inductive UiInputState
  | NoInput
  | Confirm (notifier : Nat)
  | Text (responder : Nat)
  deriving Repr, DecidableEq

/-- Model of `UiInputStateType` (src/gui.rs lines 276-280). -/
inductive UiInputStateType
  | NoInput
  | Confirm
  | Text
  deriving Repr, DecidableEq

/-- Model of `UiInputState::get_type` (src/gui.rs lines 266-274). -/
def UiInputState.get_type : UiInputState → UiInputStateType
  | UiInputState.NoInput => UiInputStateType.NoInput
  | UiInputState.Confirm _ => UiInputStateType.Confirm
  | UiInputState.Text _ => UiInputStateType.Text

/-- The two shared cells of `UiState` (src/gui.rs lines 230-234). -/
structure UiState where
  display : UiDisplayState
  input : UiInputState
  deriving Repr, DecidableEq

/-- A value sent on a ui oneshot channel by the rendering loop:
`()` on a confirm notifier, a string on a text responder. -/
inductive UiSend
  | confirm (chan : Nat)
  | text (chan : Nat) (value : String)
  deriving Repr, DecidableEq

/-- The per-frame input events `draw_ui` reacts to (src/gui.rs lines
158-189): an Enter key press, a Backspace key press, text input, or
anything else. -/
inductive GuiEvent
  | keyEnter
  | keyBackspace
  | text (s : String)
  | other
  deriving Repr, DecidableEq

/-- The mutable state `draw_ui` holds besides the shared cells:
`GUI::current_input` (src/gui.rs line 21). -/
structure GUIModel where
  current_input : String
  deriving Repr, DecidableEq

/-- The event loop of the `Text` arm of `draw_ui` (src/gui.rs lines
157-191), folding over the frame's events.  On Enter the input cell is
taken (`std::mem::take`), the current input is sent on the responder and
cleared; a take that does not find a `Text` responder is the source's
`unreachable!()`, modelled as `none`. -/
def drawUiTextEvents (gui : GUIModel) (input : UiInputState)
    (sends : List UiSend) :
    List GuiEvent → Option (GUIModel × UiInputState × List UiSend)
  | [] => some (gui, input, sends)
  | event :: rest =>
    match event with
    | GuiEvent.keyEnter =>
      match input with
      | UiInputState.Text responder =>
        drawUiTextEvents { current_input := "" } UiInputState.NoInput
          (sends ++ [UiSend.text responder gui.current_input]) rest
      | _ => none
    | GuiEvent.keyBackspace =>
      drawUiTextEvents { current_input := gui.current_input.dropRight 1 }
        input sends rest
    | GuiEvent.text s =>
      drawUiTextEvents { current_input := gui.current_input ++ s }
        input sends rest
    | GuiEvent.other => drawUiTextEvents gui input sends rest

/-- Model of `draw_ui` (src/gui.rs lines 63-193) restricted to its interaction
with the shared cells and the gui state: the display section (lines
77-138) only reads `cells.display`; the input section (lines 140-192)
dispatches on `input.get_type()`.  `none` models the `unreachable!()`
panic. -/
def draw_ui (gui : GUIModel) (cells : UiState) (events : List GuiEvent) :
    Option (GUIModel × UiState × List UiSend) :=
  match cells.input.get_type with
  | UiInputStateType.NoInput => some (gui, cells, [])
  | UiInputStateType.Confirm =>
    if events.any (fun e => e = GuiEvent.keyEnter) then
      match cells.input with
      | UiInputState.Confirm notifier =>
        some (gui, { cells with input := UiInputState.NoInput },
              [UiSend.confirm notifier])
      | _ => none
    else some (gui, cells, [])
  | UiInputStateType.Text =>
    match drawUiTextEvents gui cells.input [] events with
    | none => none
    | some (gui', input', sends) =>
      some (gui', { cells with input := input' }, sends)

/-!
Section: The interaction bridge's prompt handling (`UiManager::run`,
src/gui.rs lines 350-423).

`handle_prompt` is the body of the `StatePacket::Prompt` arm (lines
358-410): what it writes to the two cells, which fresh ui oneshot
channel it registers, whether it suspends awaiting that channel, and the
answer it replies with.  `captured` stands for the string received on
the text responder channel (what the rendering loop sent).
-/

/-- Which await, if any, the bridge performs before replying. -/
inductive UiAwait
  | text
  | confirm
  deriving Repr, DecidableEq

/-- Result of handling one `AuthPrompt`: the display cell written, the
input cell written (`none` = left untouched), the await performed before
replying, and the answer replied. -/
structure PromptHandling where
  display : UiDisplayState
  inputWritten : Option UiInputState
  awaited : Option UiAwait
  answer : Option String
  deriving Repr, DecidableEq

/-- The `StatePacket::Prompt` arm of `UiManager::run` (src/gui.rs lines
358-410).  `chan` is the fresh ui oneshot channel allocated for the
prompt; `captured` is the text the responder channel eventually yields
(used only by the `Input` arm). -/
def UiManager.handle_prompt (prompt : AuthPrompt) (chan : Nat)
    (captured : String) : PromptHandling :=
  match prompt with
  | AuthPrompt.Input p secret =>
    { display :=
        UiDisplayState.Message p
          (if secret then UiDisplayInputVisibility.Hidden
           else UiDisplayInputVisibility.Shown),
      inputWritten := some (UiInputState.Text chan),
      awaited := some UiAwait.text,
      answer := some captured }
  | AuthPrompt.Info note =>
    { display :=
        UiDisplayState.Message note
          (UiDisplayInputVisibility.NoInput false),
      inputWritten := none,
      awaited := none,
      answer := none }
  | AuthPrompt.Error note =>
    { display :=
        UiDisplayState.Message note
          (UiDisplayInputVisibility.NoInput true),
      inputWritten := some (UiInputState.Confirm chan),
      awaited := some UiAwait.confirm,
      answer := none }

/-!
Section: Joint interleaved execution of the session driver and the
interaction bridge (src/client.rs lines 257-291 and src/gui.rs lines
308-424).

The one-shot channels (`tokio::sync::oneshot`) are identified by `Nat`
and live in a channel store: a channel is `empty` until its sender
sends, `full` while the value is in flight, `taken` once the receiver
has consumed it.  Packets carry the identifiers of the channels they
hand over, exactly as `UsernamePacket`, `StatePacket` and
`PromptResponsePacket` (src/client.rs lines 226-238) carry senders.
A scheduler chooses at every step which task runs; a task that is
awaiting an `empty` channel (or whose script ran dry) cannot step.
-/

/-- A message in flight on a one-shot channel. -/
inductive Msg
  | username (name : String) (stateChan : Nat)
  | statePrompt (prompt : AuthPrompt) (responseChan : Nat)
  | stateSuccess (commandChan : Nat)
  | promptResponse (answer : Option String) (nextStateChan : Nat)
  | command (cmd : List String)
  deriving Repr, DecidableEq

/-- The lifecycle of a one-shot channel. -/
inductive ChanState
  | empty
  | full (m : Msg)
  | taken
  deriving Repr, DecidableEq

/-- The two tasks. -/
inductive Tid
  | driver
  | bridge
  deriving Repr, DecidableEq

/-- An observable channel event: a send or a receive, by one task, on
one channel. -/
inductive Event
  | send (t : Tid) (chan : Nat) (m : Msg)
  | recv (t : Tid) (chan : Nat) (m : Msg)
  deriving Repr, DecidableEq

/-- Control state of `ClientManager::run` between suspension points. -/
inductive DriverState
  | awaitUsername (recvChan : Nat) (client : Client)
  | loopNext (responder : Nat) (active : ActiveClient)
  | awaitPromptResponse (recvChan : Nat) (prompting : PromptingClient)
  | awaitCommand (recvChan : Nat) (successful : SuccessfulClient)
  | done (result : Except ClientError Unit)
  deriving Repr

/-- Control state of `UiManager::run` between suspension points.
`start` is the part before the loop (confirm gate, username resolution,
username send); `replying` holds a received prompt whose reply has not
been sent yet; `sendingCommand` has received `Success` but not yet sent
the command. -/
inductive BridgeState
  | start (startChan : Nat)
  | awaitState (recvChan : Nat)
  | replying (responseChan : Nat) (prompt : AuthPrompt)
  | sendingCommand (commandChan : Nat)
  | finished
  deriving Repr, DecidableEq

/-- Joint configuration: both tasks, the channel store, a fresh-channel
counter, the daemon read script, the user text-input script, the static
configuration (username and command), the driver's write oracle, and
the event trace so far. -/
structure JointCfg where
  driver : DriverState
  bridge : BridgeState
  chans : Nat → ChanState
  nextChan : Nat
  reads : List (Except CodecError Response)
  script : List String
  username : String
  command : List String
  write : WriteOracle
  trace : List Event

/-- Point update of the channel store. -/
def setChan (f : Nat → ChanState) (k : Nat) (v : ChanState) :
    Nat → ChanState :=
  fun c => if c = k then v else f c

/-- One step of the session driver task (`ClientManager::run`),
`none` when it is blocked or done. -/
def stepD (cfg : JointCfg) : Option JointCfg :=
  match cfg.driver with
  | DriverState.awaitUsername u client =>
    match cfg.chans u with
    | ChanState.full (Msg.username nm sChan) =>
      let chans' := setChan cfg.chans u ChanState.taken
      let trace' := cfg.trace ++ [Event.recv Tid.driver u (Msg.username nm sChan)]
      match (Client.create_session client nm cfg.write).fst with
      | Except.error (e, _) =>
        some { cfg with driver := DriverState.done (Except.error e),
                        chans := chans', trace := trace' }
      | Except.ok active =>
        some { cfg with driver := DriverState.loopNext sChan active,
                        chans := chans', trace := trace' }
    | _ => none
  | DriverState.loopNext responder active =>
    match cfg.reads with
    | [] => none
    | read :: reads' =>
      match ActiveClient.next active read with
      | Except.error (e, _) =>
        some { cfg with driver := DriverState.done (Except.error e),
                        reads := reads' }
      | Except.ok (Sum.inl prompting) =>
        let pr := cfg.nextChan
        let m := Msg.statePrompt prompting.prompt pr
        some { cfg with
               driver := DriverState.awaitPromptResponse pr prompting,
               chans := setChan cfg.chans responder (ChanState.full m),
               nextChan := cfg.nextChan + 1,
               reads := reads',
               trace := cfg.trace ++ [Event.send Tid.driver responder m] }
      | Except.ok (Sum.inr successful) =>
        let c := cfg.nextChan
        let m := Msg.stateSuccess c
        some { cfg with
               driver := DriverState.awaitCommand c successful,
               chans := setChan cfg.chans responder (ChanState.full m),
               nextChan := cfg.nextChan + 1,
               reads := reads',
               trace := cfg.trace ++ [Event.send Tid.driver responder m] }
  | DriverState.awaitPromptResponse pr prompting =>
    match cfg.chans pr with
    | ChanState.full (Msg.promptResponse answer nextState) =>
      let chans' := setChan cfg.chans pr ChanState.taken
      let trace' := cfg.trace ++
        [Event.recv Tid.driver pr (Msg.promptResponse answer nextState)]
      match (PromptingClient.next prompting answer cfg.write).fst with
      | Except.error (e, _) =>
        some { cfg with driver := DriverState.done (Except.error e),
                        chans := chans', trace := trace' }
      | Except.ok active =>
        some { cfg with driver := DriverState.loopNext nextState active,
                        chans := chans', trace := trace' }
    | _ => none
  | DriverState.awaitCommand c successful =>
    match cfg.chans c with
    | ChanState.full (Msg.command cmd) =>
      let chans' := setChan cfg.chans c ChanState.taken
      let trace' := cfg.trace ++ [Event.recv Tid.driver c (Msg.command cmd)]
      match (SuccessfulClient.finish successful cmd [] cfg.write).fst with
      | Except.error (e, _) =>
        some { cfg with driver := DriverState.done (Except.error e),
                        chans := chans', trace := trace' }
      | Except.ok _ =>
        some { cfg with driver := DriverState.done (Except.ok ()),
                        chans := chans', trace := trace' }
    | _ => none
  | DriverState.done _ => none

/-- The answer the bridge replies with for a prompt, consuming the text
script on an `Input` prompt (src/gui.rs lines 358-410); `none` when the
user never finishes typing (script dry). -/
def bridgeAnswer (prompt : AuthPrompt) (script : List String) :
    Option (Option String × List String) :=
  match prompt with
  | AuthPrompt.Input _ _ =>
    match script with
    | [] => none
    | s :: rest => some (some s, rest)
  | AuthPrompt.Info _ => some (none, script)
  | AuthPrompt.Error _ => some (none, script)

/-- One step of the interaction bridge task (`UiManager::run`),
`none` when it is blocked or finished. -/
def stepB (cfg : JointCfg) : Option JointCfg :=
  match cfg.bridge with
  | BridgeState.start sc =>
    let s0 := cfg.nextChan
    let m := Msg.username cfg.username s0
    some { cfg with
           bridge := BridgeState.awaitState s0,
           chans := setChan cfg.chans sc (ChanState.full m),
           nextChan := cfg.nextChan + 1,
           trace := cfg.trace ++ [Event.send Tid.bridge sc m] }
  | BridgeState.awaitState r =>
    match cfg.chans r with
    | ChanState.full (Msg.statePrompt prompt responseChan) =>
      some { cfg with
             bridge := BridgeState.replying responseChan prompt,
             chans := setChan cfg.chans r ChanState.taken,
             trace := cfg.trace ++
               [Event.recv Tid.bridge r (Msg.statePrompt prompt responseChan)] }
    | ChanState.full (Msg.stateSuccess commandChan) =>
      some { cfg with
             bridge := BridgeState.sendingCommand commandChan,
             chans := setChan cfg.chans r ChanState.taken,
             trace := cfg.trace ++
               [Event.recv Tid.bridge r (Msg.stateSuccess commandChan)] }
    | _ => none
  | BridgeState.replying responseChan prompt =>
    match bridgeAnswer prompt cfg.script with
    | none => none
    | some (answer, script') =>
      let n := cfg.nextChan
      let m := Msg.promptResponse answer n
      some { cfg with
             bridge := BridgeState.awaitState n,
             chans := setChan cfg.chans responseChan (ChanState.full m),
             nextChan := cfg.nextChan + 1,
             script := script',
             trace := cfg.trace ++ [Event.send Tid.bridge responseChan m] }
  | BridgeState.sendingCommand c =>
    let m := Msg.command cfg.command
    some { cfg with
           bridge := BridgeState.finished,
           chans := setChan cfg.chans c (ChanState.full m),
           trace := cfg.trace ++ [Event.send Tid.bridge c m] }
  | BridgeState.finished => none

/-- One scheduled step: run the chosen task if it can step, otherwise
leave the configuration unchanged. -/
def stepOr (cfg : JointCfg) (t : Tid) : JointCfg :=
  match t with
  | Tid.driver => (stepD cfg).getD cfg
  | Tid.bridge => (stepB cfg).getD cfg

/-- Run a whole schedule. -/
def runSched (cfg : JointCfg) (sched : List Tid) : JointCfg :=
  sched.foldl stepOr cfg

/-- The initial configuration: channel 0 is the username one-shot
created in `ClientManager::new` (src/client.rs line 247); the driver
awaits it, the bridge holds its sender. -/
def initCfg (stream : Nat) (username : String) (command : List String)
    (write : WriteOracle) (reads : List (Except CodecError Response))
    (script : List String) : JointCfg :=
  { driver := DriverState.awaitUsername 0 { stream := stream },
    bridge := BridgeState.start 0,
    chans := fun _ => ChanState.empty,
    nextChan := 1,
    reads := reads,
    script := script,
    username := username,
    command := command,
    write := write,
    trace := [] }

/-!
Section: trace observables for the staircase claims.
-/

/-- Number of send events on channel `c` in a trace. -/
def sendCount (trace : List Event) (c : Nat) : Nat :=
  (trace.filter fun e =>
    match e with
    | Event.send _ c' _ => c' = c
    | Event.recv _ _ _ => false).length

/-- The bridge receives a `Prompt` state packet. -/
def isPromptRecv : Event → Bool
  | Event.recv Tid.bridge _ (Msg.statePrompt _ _) => true
  | _ => false

/-- The bridge sends a prompt reply. -/
def isReplySend : Event → Bool
  | Event.send Tid.bridge _ (Msg.promptResponse _ _) => true
  | _ => false

/-- The driver sends a `StatePacket` (prompt or success). -/
def isStateSend : Event → Bool
  | Event.send Tid.driver _ (Msg.statePrompt _ _) => true
  | Event.send Tid.driver _ (Msg.stateSuccess _) => true
  | _ => false

/-- The driver receives a reply to a state packet (a prompt response or
the command). -/
def isReplyRecv : Event → Bool
  | Event.recv Tid.driver _ (Msg.promptResponse _ _) => true
  | Event.recv Tid.driver _ (Msg.command _) => true
  | _ => false

/-- Automaton step for strict alternation of `p`-events and `q`-events:
the state is `some pending` (`pending` = a `p`-event has happened with
no `q`-event after it yet) or `none` once two `p`-events occur with no
`q`-event in between. -/
def altStep (p q : Event → Bool) (st : Option Bool) (e : Event) :
    Option Bool :=
  match st with
  | none => none
  | some pending =>
    if p e then (if pending then none else some true)
    else if q e then some false
    else some pending

/-- Run the alternation automaton over a trace. -/
def altState (p q : Event → Bool) (trace : List Event) : Option Bool :=
  trace.foldl (altStep p q) (some false)

/-- Whether the bridge has received a prompt it has not yet replied to. -/
def bridgePending : BridgeState → Bool
  | BridgeState.replying _ _ => true
  | _ => false

/-- Whether the driver has sent a state packet whose reply it has not
yet consumed. -/
def driverPending : DriverState → Bool
  | DriverState.awaitPromptResponse _ _ => true
  | DriverState.awaitCommand _ _ => true
  | _ => false

/-- The reachable joint control-and-channel configurations of the two
tasks: each constructor describes one rendezvous phase, pinning the
states of the channels the two tasks currently reference. -/
inductive Shape (chans : Nat → ChanState) (nc : Nat) :
    DriverState → BridgeState → Prop
  | atStart (u : Nat) (cl : Client) (hu : u < nc)
      (he : chans u = ChanState.empty) :
      Shape chans nc (DriverState.awaitUsername u cl) (BridgeState.start u)
  | usernameSent (u s : Nat) (cl : Client) (nm : String)
      (hu : u < nc) (hs : s < nc) (hne : u ≠ s)
      (hf : chans u = ChanState.full (Msg.username nm s))
      (hse : chans s = ChanState.empty) :
      Shape chans nc (DriverState.awaitUsername u cl)
        (BridgeState.awaitState s)
  | looping (r : Nat) (a : ActiveClient) (hr : r < nc)
      (he : chans r = ChanState.empty) :
      Shape chans nc (DriverState.loopNext r a) (BridgeState.awaitState r)
  | promptSent (r pr : Nat) (p : PromptingClient) (pp : AuthPrompt)
      (hr : r < nc) (hpr : pr < nc) (hne : r ≠ pr)
      (hf : chans r = ChanState.full (Msg.statePrompt pp pr))
      (he : chans pr = ChanState.empty) :
      Shape chans nc (DriverState.awaitPromptResponse pr p)
        (BridgeState.awaitState r)
  | bridgeReplying (pr : Nat) (p : PromptingClient) (pp : AuthPrompt)
      (hpr : pr < nc) (he : chans pr = ChanState.empty) :
      Shape chans nc (DriverState.awaitPromptResponse pr p)
        (BridgeState.replying pr pp)
  | replySent (pr n : Nat) (p : PromptingClient) (ans : Option String)
      (hpr : pr < nc) (hn : n < nc) (hne : pr ≠ n)
      (hf : chans pr = ChanState.full (Msg.promptResponse ans n))
      (he : chans n = ChanState.empty) :
      Shape chans nc (DriverState.awaitPromptResponse pr p)
        (BridgeState.awaitState n)
  | successSent (r c : Nat) (s : SuccessfulClient)
      (hr : r < nc) (hc : c < nc) (hne : r ≠ c)
      (hf : chans r = ChanState.full (Msg.stateSuccess c))
      (he : chans c = ChanState.empty) :
      Shape chans nc (DriverState.awaitCommand c s) (BridgeState.awaitState r)
  | bridgeSendingCommand (c : Nat) (s : SuccessfulClient)
      (hc : c < nc) (he : chans c = ChanState.empty) :
      Shape chans nc (DriverState.awaitCommand c s)
        (BridgeState.sendingCommand c)
  | commandSent (c : Nat) (s : SuccessfulClient) (cmd : List String)
      (hc : c < nc) (hf : chans c = ChanState.full (Msg.command cmd)) :
      Shape chans nc (DriverState.awaitCommand c s) (BridgeState.finished)
  | doneBlocked (res : Except ClientError Unit) (s : Nat)
      (hs : s < nc) (he : chans s = ChanState.empty) :
      Shape chans nc (DriverState.done res) (BridgeState.awaitState s)
  | doneFinished (res : Except ClientError Unit) :
      Shape chans nc (DriverState.done res) (BridgeState.finished)

/-- The inductive invariant of the joint system: the control/channel
shape, freshness of unallocated channels, exact send counts per
channel, and the two alternation automata tracking the control
states. -/
structure Inv (cfg : JointCfg) : Prop where
  shape : Shape cfg.chans cfg.nextChan cfg.driver cfg.bridge
  fresh : ∀ c, cfg.nextChan ≤ c → cfg.chans c = ChanState.empty
  counts : ∀ c, sendCount cfg.trace c =
    (if cfg.chans c = ChanState.empty then 0 else 1)
  altB : altState isPromptRecv isReplySend cfg.trace =
    some (bridgePending cfg.bridge)
  altD : altState isStateSend isReplyRecv cfg.trace =
    some (driverPending cfg.driver)

/-!
Section: helper lemmas.
-/

theorem setChan_same (f : Nat → ChanState) (k : Nat) (v : ChanState) :
    setChan f k v k = v := by
  simp [setChan]

theorem setChan_other (f : Nat → ChanState) (k : Nat) (v : ChanState)
    (c : Nat) (h : c ≠ k) : setChan f k v c = f c := by
  simp [setChan, h]

theorem sendCount_append (trace : List Event) (e : Event) (c : Nat) :
    sendCount (trace ++ [e]) c =
      sendCount trace c +
        (match e with
         | Event.send _ c' _ => if c' = c then 1 else 0
         | Event.recv _ _ _ => 0) := by
  cases e with
  | send t c' m =>
    by_cases h : c' = c <;> simp [sendCount, List.filter_append, h]
  | recv t c' m => simp [sendCount, List.filter_append]

theorem altState_append (p q : Event → Bool) (trace : List Event)
    (e : Event) :
    altState p q (trace ++ [e]) = altStep p q (altState p q trace) e := by
  simp [altState, List.foldl_append]

theorem altState_skip (p q : Event → Bool) (trace : List Event) (e : Event)
    (st : Option Bool) (hp : p e = false) (hq : q e = false)
    (h : altState p q trace = st) : altState p q (trace ++ [e]) = st := by
  rw [altState_append, h]
  cases st with
  | none => rfl
  | some pending => simp [altStep, hp, hq]

theorem altState_fire (p q : Event → Bool) (trace : List Event) (e : Event)
    (hp : p e = true) (h : altState p q trace = some false) :
    altState p q (trace ++ [e]) = some true := by
  rw [altState_append, h]
  simp [altStep, hp]

theorem altState_settle (p q : Event → Bool) (trace : List Event) (e : Event)
    (b : Bool) (hp : p e = false) (hq : q e = true)
    (h : altState p q trace = some b) :
    altState p q (trace ++ [e]) = some false := by
  rw [altState_append, h]
  simp [altStep, hp, hq]

/-!
Section: claim theorems.
-/

/-- C1: `ActiveClient::next` (`SessionActive.next()`) maps a `Success`
response to the Authenticated state, an `Error` response to a
`GenericError` (kind Generic) or `AuthError` (kind Auth) paired with an
Unauthenticated `Client`, a read failure to `FailedSocketRead` paired
with an Unauthenticated `Client`, and an `AuthMessage` response to the
Prompting state carrying the mapped `AuthPrompt` (`Visible` to `Input`
with `secret = false`, `Secret` to `Input` with `secret = true`, `Info`
to `Info`, `Error` to `Error`, each carrying the message text); in every
case the resulting state holds the same stream the consumed state
held. -/
theorem C1_sessionActive_next_transitions (s : Nat) :
    (∀ e, ActiveClient.next ⟨s⟩ (Except.error e) =
      Except.error (ClientError.FailedSocketRead e, ⟨s⟩)) ∧
    ActiveClient.next ⟨s⟩ (Except.ok Response.Success) =
      Except.ok (Sum.inr ⟨s⟩) ∧
    (∀ d, ActiveClient.next ⟨s⟩
        (Except.ok (Response.Error ErrorType.Error d)) =
      Except.error (ClientError.GenericError d, ⟨s⟩)) ∧
    (∀ d, ActiveClient.next ⟨s⟩
        (Except.ok (Response.Error ErrorType.AuthError d)) =
      Except.error (ClientError.AuthError d, ⟨s⟩)) ∧
    (∀ m, ActiveClient.next ⟨s⟩
        (Except.ok (Response.AuthMessage AuthMessageType.Visible m)) =
      Except.ok (Sum.inl ⟨s, AuthPrompt.Input m false⟩)) ∧
    (∀ m, ActiveClient.next ⟨s⟩
        (Except.ok (Response.AuthMessage AuthMessageType.Secret m)) =
      Except.ok (Sum.inl ⟨s, AuthPrompt.Input m true⟩)) ∧
    (∀ m, ActiveClient.next ⟨s⟩
        (Except.ok (Response.AuthMessage AuthMessageType.Info m)) =
      Except.ok (Sum.inl ⟨s, AuthPrompt.Info m⟩)) ∧
    (∀ m, ActiveClient.next ⟨s⟩
        (Except.ok (Response.AuthMessage AuthMessageType.Error m)) =
      Except.ok (Sum.inl ⟨s, AuthPrompt.Error m⟩)) :=
  ⟨fun _ => rfl, rfl, fun _ => rfl, fun _ => rfl, fun _ => rfl,
   fun _ => rfl, fun _ => rfl, fun _ => rfl⟩

/-- C2 counterexample: a write failure in `PromptingClient::next` hands
back the error paired with the same `PromptingClient` — a value in the
Prompting state, not the Unauthenticated state — so it is false that
every failing operation hands back an Unauthenticated connection. -/
theorem C2_counterexample :
    (recoveredOfPromptingNext
      (PromptingClient.next ⟨0, AuthPrompt.Input "Password:" true⟩
        (some "x") (fun _ => some (CodecError.mk "io"))).fst).map
      ConnState.isUnauthenticated = some false := by
  rfl

/-- C2 amended: every failing operation returns the error paired with a
connection value holding the same transport, in a well-defined state —
the Unauthenticated state for `create_session` and `SessionActive.next`
failures, but the original Prompting state (same undelivered prompt)
for `PromptingClient::next` write failures and the original
Authenticated state for `SuccessfulClient::finish` write failures; the
transport is never discarded. -/
theorem C2_amended_failures_keep_transport :
    (∀ (c : Client) (u : String) (w : WriteOracle) (st : ConnState),
      recoveredOfCreateSession (c.create_session u w).fst = some st →
        st = ConnState.unauthenticated c ∧ st.stream = c.stream) ∧
    (∀ (a : ActiveClient) (r : Except CodecError Response) (st : ConnState),
      recoveredOfActiveNext (a.next r) = some st →
        st = ConnState.unauthenticated ⟨a.stream⟩ ∧ st.stream = a.stream) ∧
    (∀ (p : PromptingClient) (ans : Option String) (w : WriteOracle)
        (st : ConnState),
      recoveredOfPromptingNext (p.next ans w).fst = some st →
        st = ConnState.prompting p ∧ st.stream = p.stream) ∧
    (∀ (s : SuccessfulClient) (cmd env : List String) (w : WriteOracle)
        (st : ConnState),
      recoveredOfFinish (s.finish cmd env w).fst = some st →
        st = ConnState.authenticated s ∧ st.stream = s.stream) := by
  refine ⟨?_, ?_, ?_, ?_⟩
  · intro c u w st h
    unfold Client.create_session recoveredOfCreateSession at h
    cases hw : w (Request.CreateSession u) <;> simp [hw] at h
    subst h
    exact ⟨rfl, rfl⟩
  · intro a r st h
    unfold ActiveClient.next recoveredOfActiveNext at h
    cases r with
    | error e =>
      simp at h
      subst h
      exact ⟨rfl, rfl⟩
    | ok resp =>
      cases resp with
      | Success => simp at h
      | Error et d =>
        simp at h
        subst h
        exact ⟨rfl, rfl⟩
      | AuthMessage t m => simp at h
  · intro p ans w st h
    unfold PromptingClient.next recoveredOfPromptingNext at h
    cases hw : w (Request.PostAuthMessageResponse ans) <;> simp [hw] at h
    subst h
    exact ⟨rfl, rfl⟩
  · intro s cmd env w st h
    unfold SuccessfulClient.finish recoveredOfFinish at h
    cases hw : w (Request.StartSession cmd env) <;> simp [hw] at h
    subst h
    exact ⟨rfl, rfl⟩

/-- C2 amended, witness: the Prompting-state case evaluated on a
concrete prompting client whose write fails. -/
theorem C2_amended_witness :
    ConnState.prompting ⟨7, AuthPrompt.Input "Password:" true⟩ =
      ConnState.prompting ⟨7, AuthPrompt.Input "Password:" true⟩ ∧
    (ConnState.prompting ⟨7, AuthPrompt.Input "Password:" true⟩).stream =
      7 :=
  C2_amended_failures_keep_transport.2.2.1
    ⟨7, AuthPrompt.Input "Password:" true⟩ (some "x")
    (fun _ => some (CodecError.mk "io"))
    (ConnState.prompting ⟨7, AuthPrompt.Input "Password:" true⟩) (by rfl)

/-- C3: a write failure in `Client::create_session`,
`PromptingClient::next` or `SuccessfulClient::finish` returns the
`FailedSocketWrite` error paired with the very value the operation
consumed — same state, same transport, and for `PromptingClient` the
same undelivered prompt — so the caller can retry the same request. -/
theorem C3_write_failure_returns_same_state :
    (∀ (c : Client) (u : String) (w : WriteOracle) (e : CodecError),
      w (Request.CreateSession u) = some e →
        (c.create_session u w).fst =
          Except.error (ClientError.FailedSocketWrite e, c)) ∧
    (∀ (p : PromptingClient) (ans : Option String) (w : WriteOracle)
        (e : CodecError),
      w (Request.PostAuthMessageResponse ans) = some e →
        (p.next ans w).fst =
          Except.error (ClientError.FailedSocketWrite e, p)) ∧
    (∀ (s : SuccessfulClient) (cmd env : List String) (w : WriteOracle)
        (e : CodecError),
      w (Request.StartSession cmd env) = some e →
        (s.finish cmd env w).fst =
          Except.error (ClientError.FailedSocketWrite e, s)) := by
  refine ⟨?_, ?_, ?_⟩
  · intro c u w e hw
    simp [Client.create_session, hw]
  · intro p ans w e hw
    simp [PromptingClient.next, hw]
  · intro s cmd env w e hw
    simp [SuccessfulClient.finish, hw]

/-- C3 witness: the three write-failure cases evaluated on concrete
inputs with a concretely failing write oracle. -/
theorem C3_witness :
    (Client.create_session ⟨2⟩ "alice"
        (fun _ => some (CodecError.mk "io"))).fst =
      Except.error
        (ClientError.FailedSocketWrite (CodecError.mk "io"), ⟨2⟩) ∧
    (PromptingClient.next ⟨2, AuthPrompt.Info "hi"⟩ none
        (fun _ => some (CodecError.mk "io"))).fst =
      Except.error
        (ClientError.FailedSocketWrite (CodecError.mk "io"),
         ⟨2, AuthPrompt.Info "hi"⟩) ∧
    (SuccessfulClient.finish ⟨2⟩ ["sway"] []
        (fun _ => some (CodecError.mk "io"))).fst =
      Except.error
        (ClientError.FailedSocketWrite (CodecError.mk "io"), ⟨2⟩) :=
  ⟨C3_write_failure_returns_same_state.1 ⟨2⟩ "alice" _ _ rfl,
   C3_write_failure_returns_same_state.2.1 ⟨2, AuthPrompt.Info "hi"⟩ none
     _ _ rfl,
   C3_write_failure_returns_same_state.2.2 ⟨2⟩ ["sway"] [] _ _ rfl⟩

/-- C8: `cancel()` on the SessionActive or Prompting state always
returns an Unauthenticated `Client` holding the same stream, writes a
`CancelSession` request, and pairs it with an error exactly when (and
only when) that write failed. -/
theorem C8_cancel_keeps_transport (s : Nat) (p : AuthPrompt)
    (w : WriteOracle) :
    ActiveClient.cancel ⟨s⟩ w =
      ((⟨s⟩, (w Request.CancelSession).map ClientError.FailedSocketWrite),
       Request.CancelSession) ∧
    PromptingClient.cancel ⟨s, p⟩ w =
      ((⟨s⟩, (w Request.CancelSession).map ClientError.FailedSocketWrite),
       Request.CancelSession) ∧
    ((ActiveClient.cancel ⟨s⟩ w).fst.snd.isSome ↔
      (w Request.CancelSession).isSome) ∧
    ((PromptingClient.cancel ⟨s, p⟩ w).fst.snd.isSome ↔
      (w Request.CancelSession).isSome) := by
  refine ⟨rfl, rfl, ?_, ?_⟩ <;>
    cases hw : w Request.CancelSession <;>
      simp [ActiveClient.cancel, PromptingClient.cancel, hw]

/-- C9: when the `GREETD_SOCK` environment variable is absent,
`Client::new` fails with `MissingEnvVar` and attempts no socket
connection; when it is present but connecting fails, it returns the
distinct `FailedSocketConnection` error. -/
theorem C9_missing_env_var (connect : String → Except IOError Nat) :
    Client.new none connect = (Except.error ClientError.MissingEnvVar, []) ∧
    (∀ (sock : String) (e : IOError), connect sock = Except.error e →
      Client.new (some sock) connect =
        (Except.error (ClientError.FailedSocketConnection e), [sock])) ∧
    (∀ e, ClientError.MissingEnvVar ≠ ClientError.FailedSocketConnection e) := by
  refine ⟨rfl, ?_, ?_⟩
  · intro sock e hc
    simp [Client.new, hc]
  · intro e h
    cases h

/-- C9 witness: a concrete absent variable and a concrete failing
connection. -/
theorem C9_witness :
    Client.new none (fun _ => Except.error (IOError.mk "refused")) =
      (Except.error ClientError.MissingEnvVar, []) ∧
    Client.new (some "/run/greetd.sock")
        (fun _ => Except.error (IOError.mk "refused")) =
      (Except.error
        (ClientError.FailedSocketConnection (IOError.mk "refused")),
       ["/run/greetd.sock"]) :=
  ⟨(C9_missing_env_var (fun _ => Except.error (IOError.mk "refused"))).1,
   (C9_missing_env_var (fun _ => Except.error (IOError.mk "refused"))).2.1
     "/run/greetd.sock" (IOError.mk "refused") rfl⟩

/-- Helper: the `Text` event loop of `draw_ui` either leaves the input
cell alone or resets it to `NoInput` (after firing the responder). -/
theorem drawUiTextEvents_input_cases :
    ∀ (events : List GuiEvent) (gui : GUIModel) (input : UiInputState)
      (sends : List UiSend) (g' : GUIModel) (i' : UiInputState)
      (s' : List UiSend),
      drawUiTextEvents gui input sends events = some (g', i', s') →
      i' = input ∨ i' = UiInputState.NoInput := by
  intro events
  induction events with
  | nil =>
    intro gui input sends g' i' s' h
    simp [drawUiTextEvents] at h
    exact Or.inl h.2.1.symm
  | cons e rest ih =>
    intro gui input sends g' i' s' h
    cases e with
    | keyEnter =>
      cases input with
      | Text responder =>
        simp only [drawUiTextEvents] at h
        rcases ih _ _ _ _ _ _ h with h' | h' <;> exact Or.inr h'
      | NoInput => simp [drawUiTextEvents] at h
      | Confirm n => simp [drawUiTextEvents] at h
    | keyBackspace =>
      simp only [drawUiTextEvents] at h
      exact ih _ _ _ _ _ _ h
    | text s =>
      simp only [drawUiTextEvents] at h
      exact ih _ _ _ _ _ _ h
    | other =>
      simp only [drawUiTextEvents] at h
      exact ih _ _ _ _ _ _ h

/-- C5 counterexample: a single frame of the rendering loop
(`draw_ui`) with the input cell in `Confirm` mode and Enter pressed
mutates the shared input cell (it takes the cell, leaving `NoInput`),
so the rendering loop is not a pure reader of the two UI cells. -/
theorem C5_counterexample :
    draw_ui { current_input := "" }
        { display := UiDisplayState.Empty,
          input := UiInputState.Confirm 5 } [GuiEvent.keyEnter] =
      some ({ current_input := "" },
            { display := UiDisplayState.Empty,
              input := UiInputState.NoInput },
            [UiSend.confirm 5]) ∧
    UiInputState.NoInput ≠ UiInputState.Confirm 5 := by
  exact ⟨rfl, by decide⟩

/-- C5 amended: the rendering loop (`draw_ui`) never writes the display
cell, and writes the input cell only by taking it — resetting it to
`NoInput` when dispatching an Enter key in `Confirm` or `Text` mode;
every other write to the two cells is performed by the interaction
bridge (`UiManager::run`). -/
theorem C5_amended_draw_ui_reads_display (gui : GUIModel) (cells : UiState)
    (events : List GuiEvent) (g' : GUIModel) (c' : UiState)
    (sends : List UiSend)
    (h : draw_ui gui cells events = some (g', c', sends)) :
    c'.display = cells.display ∧
    (c'.input = cells.input ∨ c'.input = UiInputState.NoInput) := by
  obtain ⟨display, input⟩ := cells
  cases input with
  | NoInput =>
    simp [draw_ui, UiInputState.get_type] at h
    rw [← h.2.1]
    exact ⟨rfl, Or.inl rfl⟩
  | Confirm notifier =>
    simp only [draw_ui, UiInputState.get_type] at h
    by_cases he : List.any events (fun e => e = GuiEvent.keyEnter) <;>
      simp [he] at h
    · rw [← h.2.1]
      exact ⟨rfl, Or.inr rfl⟩
    · rw [← h.2.1]
      exact ⟨rfl, Or.inl rfl⟩
  | Text responder =>
    simp only [draw_ui, UiInputState.get_type] at h
    cases ht : drawUiTextEvents gui (UiInputState.Text responder) [] events with
    | none => rw [ht] at h; simp at h
    | some out =>
      obtain ⟨g'', i'', s''⟩ := out
      rw [ht] at h
      simp at h
      rw [← h.2.1]
      refine ⟨rfl, ?_⟩
      exact drawUiTextEvents_input_cases events gui _ [] g'' i'' s'' ht

/-- C5 amended, witness: the amended statement evaluated on the
concrete Enter-in-Confirm-mode frame. -/
theorem C5_amended_witness :
    UiDisplayState.Empty = UiDisplayState.Empty ∧
    (UiInputState.NoInput = UiInputState.Confirm 5 ∨
     UiInputState.NoInput = UiInputState.NoInput) :=
  C5_amended_draw_ui_reads_display { current_input := "" }
    { display := UiDisplayState.Empty, input := UiInputState.Confirm 5 }
    [GuiEvent.keyEnter] { current_input := "" }
    { display := UiDisplayState.Empty, input := UiInputState.NoInput }
    [UiSend.confirm 5] rfl

/-- C6: for every prompt packet the bridge receives, an `Input` prompt
displays the prompt text with input shown masked exactly when `secret`
is set, registers text capture, blocks for the captured string and
replies with `some` of it; an `Info` prompt displays the text and
replies `none` immediately, registering no input and not blocking; an
`Error` prompt displays the text with the confirmation notice,
registers a confirmation, blocks for it, and only then replies
`none`. -/
theorem C6_bridge_prompt_handling (chan : Nat) (captured : String) :
    (∀ p secret, UiManager.handle_prompt (AuthPrompt.Input p secret)
        chan captured =
      { display := UiDisplayState.Message p
          (if secret then UiDisplayInputVisibility.Hidden
           else UiDisplayInputVisibility.Shown),
        inputWritten := some (UiInputState.Text chan),
        awaited := some UiAwait.text,
        answer := some captured }) ∧
    (∀ p secret,
      ((UiManager.handle_prompt (AuthPrompt.Input p secret)
          chan captured).display =
        UiDisplayState.Message p UiDisplayInputVisibility.Hidden ↔
       secret = true)) ∧
    (∀ note, UiManager.handle_prompt (AuthPrompt.Info note) chan captured =
      { display := UiDisplayState.Message note
          (UiDisplayInputVisibility.NoInput false),
        inputWritten := none,
        awaited := none,
        answer := none }) ∧
    (∀ note, UiManager.handle_prompt (AuthPrompt.Error note) chan captured =
      { display := UiDisplayState.Message note
          (UiDisplayInputVisibility.NoInput true),
        inputWritten := some (UiInputState.Confirm chan),
        awaited := some UiAwait.confirm,
        answer := none }) := by
  refine ⟨fun p secret => rfl, fun p secret => ?_, fun note => rfl,
    fun note => rfl⟩
  cases secret <;> simp [UiManager.handle_prompt]

/-- Helper: every `StartSession` request the driver loop writes carries
the command received from the bridge and an empty environment. -/
theorem runLoop_start_session :
    ∀ (reads : List (Except CodecError Response)) (a : ActiveClient)
      (w : WriteOracle) (answers : List (Option String))
      (command : List String) (cmd env : List String),
      Request.StartSession cmd env ∈
        (ClientManager.runLoop a w reads answers command).fst →
      cmd = command ∧ env = [] := by
  intro reads
  induction reads with
  | nil =>
    intro a w answers command cmd env h
    simp [ClientManager.runLoop] at h
  | cons read reads' ih =>
    intro a w answers command cmd env h
    cases read with
    | error e => simp [ClientManager.runLoop, ActiveClient.next] at h
    | ok resp =>
      cases resp with
      | Success =>
        simp [ClientManager.runLoop, ActiveClient.next,
          SuccessfulClient.finish] at h
        exact ⟨h.1, h.2⟩
      | Error et d =>
        simp [ClientManager.runLoop, ActiveClient.next] at h
      | AuthMessage t m =>
        rw [ClientManager.runLoop] at h
        simp only [ActiveClient.next] at h
        cases answers with
        | nil => simp at h
        | cons ans answers' =>
          simp only [PromptingClient.next] at h
          cases hw : w (Request.PostAuthMessageResponse ans) with
          | some e =>
            rw [hw] at h
            simp at h
          | none =>
            rw [hw] at h
            simp at h
            exact ih _ _ _ _ _ _ h

/-- C7: whenever the session driver reaches the Authenticated state, it
awaits the command from the bridge and calls `finish` with that command
and an empty environment list — every `StartSession` request it writes
has `env = []` and `cmd` equal to the command the bridge sent — and
then terminates the attempt with the success or the resulting error. -/
theorem C7_finish_empty_environment :
    (∀ (client : Client) (username : String) (w : WriteOracle)
        (reads : List (Except CodecError Response))
        (answers : List (Option String)) (command cmd env : List String),
      Request.StartSession cmd env ∈
        (ClientManager.run client username w reads answers command).fst →
      cmd = command ∧ env = []) ∧
    (∀ (a : ActiveClient) (w : WriteOracle)
        (reads' : List (Except CodecError Response))
        (answers : List (Option String)) (command : List String),
      ClientManager.runLoop a w (Except.ok Response.Success :: reads')
          answers command =
        ([Request.StartSession command []],
         some (match (SuccessfulClient.finish ⟨a.stream⟩ command [] w).fst
               with
               | Except.error (e, _) => Except.error e
               | Except.ok _ => Except.ok ()))) := by
  constructor
  · intro client username w reads answers command cmd env h
    unfold ClientManager.run at h
    simp only [Client.create_session] at h
    cases hw : w (Request.CreateSession username) with
    | some e =>
      rw [hw] at h
      simp at h
    | none =>
      rw [hw] at h
      simp at h
      exact runLoop_start_session reads _ w answers command cmd env h
  · intro a w reads' answers command
    rfl

/-- C7 witness: a concrete run in which the daemon immediately
succeeds; the written `StartSession` request carries the bridge's
command and the empty environment. -/
theorem C7_witness : (["sway"] : List String) = ["sway"] ∧ ([] : List String) = [] :=
  C7_finish_empty_environment.1 ⟨3⟩ "alice" (fun _ => none)
    [Except.ok Response.Success] [] ["sway"] ["sway"] [] (by decide)

/-- Helper: the driver loop's observable behaviour does not depend on
the stream identity of the connection it holds. -/
theorem runLoop_stream_irrelevant :
    ∀ (reads : List (Except CodecError Response)) (s₁ s₂ : Nat)
      (w : WriteOracle) (answers : List (Option String))
      (command : List String),
      ClientManager.runLoop ⟨s₁⟩ w reads answers command =
        ClientManager.runLoop ⟨s₂⟩ w reads answers command := by
  intro reads
  induction reads with
  | nil => intro s₁ s₂ w answers command; rfl
  | cons read reads' ih =>
    intro s₁ s₂ w answers command
    cases read with
    | error e => rfl
    | ok resp =>
      cases resp with
      | Success =>
        simp only [ClientManager.runLoop, ActiveClient.next,
          SuccessfulClient.finish]
        cases hw : w (Request.StartSession command []) <;> simp [hw]
      | Error et d => rfl
      | AuthMessage t m =>
        cases answers with
        | nil => rfl
        | cons ans answers' =>
          simp only [ClientManager.runLoop, ActiveClient.next,
            PromptingClient.next]
          cases hw : w (Request.PostAuthMessageResponse ans) with
          | some e => simp [hw]
          | none =>
            simp only [hw]
            rw [ih s₁ s₂ w answers' command]



/-- C10: on every error path of `ClientManager::run` the recovered
connection value returned by the typestate operation is discarded
(`.map_err(|(e, _)| e)`) and only the error is returned: the whole
observable behaviour of the driver is independent of the connection's
identity, and each failing operation terminates the attempt with
exactly its error, so no connection value survives a failed attempt. -/
theorem C10_errors_discard_connection :
    (∀ (s₁ s₂ : Nat) (username : String) (w : WriteOracle)
        (reads : List (Except CodecError Response))
        (answers : List (Option String)) (command : List String),
      ClientManager.run ⟨s₁⟩ username w reads answers command =
        ClientManager.run ⟨s₂⟩ username w reads answers command) ∧
    (∀ (client : Client) (username : String) (w : WriteOracle)
        (reads : List (Except CodecError Response))
        (answers : List (Option String)) (command : List String)
        (e : CodecError),
      w (Request.CreateSession username) = some e →
      ClientManager.run client username w reads answers command =
        ([Request.CreateSession username],
         some (Except.error (ClientError.FailedSocketWrite e)))) ∧
    (∀ (a : ActiveClient) (w : WriteOracle) (e : CodecError)
        (reads' : List (Except CodecError Response))
        (answers : List (Option String)) (command : List String),
      ClientManager.runLoop a w (Except.error e :: reads') answers command =
        ([], some (Except.error (ClientError.FailedSocketRead e)))) ∧
    (∀ (a : ActiveClient) (w : WriteOracle) (et : ErrorType) (d : String)
        (reads' : List (Except CodecError Response))
        (answers : List (Option String)) (command : List String),
      ClientManager.runLoop a w (Except.ok (Response.Error et d) :: reads')
          answers command =
        ([], some (Except.error
          (match et with
           | ErrorType.Error => ClientError.GenericError d
           | ErrorType.AuthError => ClientError.AuthError d)))) ∧
    (∀ (a : ActiveClient) (w : WriteOracle) (t : AuthMessageType)
        (m : String) (ans : Option String)
        (reads' : List (Except CodecError Response))
        (answers' : List (Option String)) (command : List String)
        (e : CodecError),
      w (Request.PostAuthMessageResponse ans) = some e →
      ClientManager.runLoop a w
          (Except.ok (Response.AuthMessage t m) :: reads')
          (ans :: answers') command =
        ([Request.PostAuthMessageResponse ans],
         some (Except.error (ClientError.FailedSocketWrite e)))) ∧
    (∀ (a : ActiveClient) (w : WriteOracle)
        (reads' : List (Except CodecError Response))
        (answers : List (Option String)) (command : List String)
        (e : CodecError),
      w (Request.StartSession command []) = some e →
      ClientManager.runLoop a w (Except.ok Response.Success :: reads')
          answers command =
        ([Request.StartSession command []],
         some (Except.error (ClientError.FailedSocketWrite e)))) := by
  refine ⟨?_, ?_, ?_, ?_, ?_, ?_⟩
  · intro s₁ s₂ username w reads answers command
    simp only [ClientManager.run, Client.create_session]
    cases hw : w (Request.CreateSession username) with
    | some e => simp [hw]
    | none =>
      simp only [hw]
      rw [runLoop_stream_irrelevant reads s₁ s₂ w answers command]
  · intro client username w reads answers command e hw
    simp [ClientManager.run, Client.create_session, hw]
  · intro a w e reads' answers command
    rfl
  · intro a w et d reads' answers command
    rfl
  · intro a w t m ans reads' answers' command e hw
    simp [ClientManager.runLoop, ActiveClient.next, PromptingClient.next, hw]
  · intro a w reads' answers command e hw
    simp [ClientManager.runLoop, ActiveClient.next,
      SuccessfulClient.finish, hw]

/-- C10 witness: the create-session write failure evaluated concretely —
the run returns only the error and the attempted request. -/
theorem C10_witness :
    ClientManager.run ⟨3⟩ "alice" (fun _ => some (CodecError.mk "io"))
        [] [] ["sway"] =
      ([Request.CreateSession "alice"],
       some (Except.error
         (ClientError.FailedSocketWrite (CodecError.mk "io")))) :=
  C10_errors_discard_connection.2.1 ⟨3⟩ "alice"
    (fun _ => some (CodecError.mk "io")) [] [] ["sway"]
    (CodecError.mk "io") rfl

/-- Helper: a receive event leaves all send counts intact, and taking a
full channel keeps the count characterisation. -/
theorem counts_recv (trace : List Event) (chans : Nat → ChanState)
    (k : Nat) (t : Tid) (m : Msg) (hk : chans k ≠ ChanState.empty)
    (h : ∀ c, sendCount trace c =
      (if chans c = ChanState.empty then 0 else 1)) :
    ∀ c, sendCount (trace ++ [Event.recv t k m]) c =
      (if setChan chans k ChanState.taken c = ChanState.empty
       then 0 else 1) := by
  intro c
  rw [sendCount_append]
  by_cases hc : c = k
  · subst hc
    rw [setChan_same]
    simp [h c, hk]
  · rw [setChan_other _ _ _ _ hc]
    simp [h c]

/-- Helper: a send on an empty channel raises its count from 0 to 1 and
keeps the count characterisation. -/
theorem counts_send (trace : List Event) (chans : Nat → ChanState)
    (k : Nat) (t : Tid) (m : Msg) (hk : chans k = ChanState.empty)
    (h : ∀ c, sendCount trace c =
      (if chans c = ChanState.empty then 0 else 1)) :
    ∀ c, sendCount (trace ++ [Event.send t k m]) c =
      (if setChan chans k (ChanState.full m) c = ChanState.empty
       then 0 else 1) := by
  intro c
  rw [sendCount_append]
  by_cases hc : c = k
  · subst hc
    rw [setChan_same]
    simp [h c, hk]
  · rw [setChan_other _ _ _ _ hc]
    have hkc : k ≠ c := fun hh => hc hh.symm
    simp [h c, hkc]

/-- Helper: updating an already-allocated channel preserves freshness. -/
theorem fresh_set (chans : Nat → ChanState) (nc k : Nat) (v : ChanState)
    (hk : k < nc)
    (h : ∀ c, nc ≤ c → chans c = ChanState.empty) :
    ∀ c, nc ≤ c → setChan chans k v c = ChanState.empty := by
  intro c hc
  rw [setChan_other]
  · exact h c hc
  · intro hh
    subst hh
    omega

/-- Helper: updating an already-allocated channel preserves freshness
above a bumped counter. -/
theorem fresh_set_alloc (chans : Nat → ChanState) (nc k : Nat)
    (v : ChanState) (hk : k < nc)
    (h : ∀ c, nc ≤ c → chans c = ChanState.empty) :
    ∀ c, nc + 1 ≤ c → setChan chans k v c = ChanState.empty := by
  intro c hc
  exact fresh_set chans nc k v hk h c (by omega)


theorem stepD_inv (cfg : JointCfg) (h : Inv cfg) :
    Inv ((stepD cfg).getD cfg) := by
  obtain ⟨hsh, hfr, hct, haB, haD⟩ := h
  obtain ⟨d, b, chans, nc, reads, script, un, cmd, w, trace⟩ := cfg
  dsimp only at hsh hfr hct haB haD
  cases hsh with
  | atStart u cl hu he =>
    simp only [stepD, he]
    exact ⟨Shape.atStart u cl hu he, hfr, hct, haB, haD⟩
  | usernameSent u s cl nm hu hs hne hf hse =>
    simp only [stepD, hf, Client.create_session]
    cases hw : w (Request.CreateSession nm) with
    | some e =>
      simp only [hw, Option.getD]
      refine ⟨Shape.doneBlocked _ s hs ?_, ?_, ?_, ?_, ?_⟩
      · dsimp only
        rw [setChan_other _ _ _ _ (fun hh => hne hh.symm)]
        exact hse
      · exact fresh_set chans nc u ChanState.taken hu hfr
      · exact counts_recv trace chans u Tid.driver _ (by rw [hf]; simp) hct
      · exact altState_skip _ _ _ _ _ rfl rfl haB
      · exact altState_skip _ _ _ _ _ rfl rfl haD
    | none =>
      simp only [hw, Option.getD]
      refine ⟨Shape.looping s _ hs ?_, ?_, ?_, ?_, ?_⟩
      · dsimp only
        rw [setChan_other _ _ _ _ (fun hh => hne hh.symm)]
        exact hse
      · exact fresh_set chans nc u ChanState.taken hu hfr
      · exact counts_recv trace chans u Tid.driver _ (by rw [hf]; simp) hct
      · exact altState_skip _ _ _ _ _ rfl rfl haB
      · exact altState_skip _ _ _ _ _ rfl rfl haD
  | looping r a hr he =>
    cases reads with
    | nil =>
      simp only [stepD, Option.getD]
      exact ⟨Shape.looping r a hr he, hfr, hct, haB, haD⟩
    | cons read reads2 =>
      cases read with
      | error e =>
        simp only [stepD, ActiveClient.next, Option.getD]
        exact ⟨Shape.doneBlocked _ r hr he, hfr, hct, haB, haD⟩
      | ok resp =>
        cases resp with
        | Success =>
          simp only [stepD, ActiveClient.next, Option.getD]
          refine ⟨Shape.successSent r nc _ (Nat.lt_succ_of_lt hr)
            (Nat.lt_succ_self nc) (ne_of_lt hr) ?_ ?_, ?_, ?_, ?_, ?_⟩
          · exact setChan_same chans r _
          · dsimp only
            rw [setChan_other _ _ _ _ (ne_of_gt hr)]
            exact hfr nc (le_refl nc)
          · exact fresh_set_alloc chans nc r _ hr hfr
          · exact counts_send trace chans r Tid.driver _ he hct
          · exact altState_skip _ _ _ _ _ rfl rfl haB
          · exact altState_fire _ _ _ _ rfl haD
        | Error et d2 =>
          simp only [stepD, ActiveClient.next, Option.getD]
          exact ⟨Shape.doneBlocked _ r hr he, hfr, hct, haB, haD⟩
        | AuthMessage t m =>
          simp only [stepD, ActiveClient.next, Option.getD]
          refine ⟨Shape.promptSent r nc _
            (match t with
             | AuthMessageType.Visible => AuthPrompt.Input m false
             | AuthMessageType.Secret => AuthPrompt.Input m true
             | AuthMessageType.Info => AuthPrompt.Info m
             | AuthMessageType.Error => AuthPrompt.Error m)
            (Nat.lt_succ_of_lt hr)
            (Nat.lt_succ_self nc) (ne_of_lt hr) ?_ ?_, ?_, ?_, ?_, ?_⟩
          · exact setChan_same chans r _
          · dsimp only
            rw [setChan_other _ _ _ _ (ne_of_gt hr)]
            exact hfr nc (le_refl nc)
          · exact fresh_set_alloc chans nc r _ hr hfr
          · exact counts_send trace chans r Tid.driver _ he hct
          · exact altState_skip _ _ _ _ _ rfl rfl haB
          · exact altState_fire _ _ _ _ rfl haD
  | promptSent r pr p pp hr hpr hne hf he =>
    simp only [stepD, he]
    exact ⟨Shape.promptSent r pr p pp hr hpr hne hf he, hfr, hct, haB, haD⟩
  | bridgeReplying pr p pp hpr he =>
    simp only [stepD, he]
    exact ⟨Shape.bridgeReplying pr p pp hpr he, hfr, hct, haB, haD⟩
  | replySent pr n p ans hpr hn hne hf he =>
    simp only [stepD, hf, PromptingClient.next]
    cases hw : w (Request.PostAuthMessageResponse ans) with
    | some e =>
      simp only [hw, Option.getD]
      refine ⟨Shape.doneBlocked _ n hn ?_, ?_, ?_, ?_, ?_⟩
      · dsimp only
        rw [setChan_other _ _ _ _ (fun hh => hne hh.symm)]
        exact he
      · exact fresh_set chans nc pr ChanState.taken hpr hfr
      · exact counts_recv trace chans pr Tid.driver _ (by rw [hf]; simp) hct
      · exact altState_skip _ _ _ _ _ rfl rfl haB
      · exact altState_settle _ _ _ _ _ rfl rfl haD
    | none =>
      simp only [hw, Option.getD]
      refine ⟨Shape.looping n _ hn ?_, ?_, ?_, ?_, ?_⟩
      · dsimp only
        rw [setChan_other _ _ _ _ (fun hh => hne hh.symm)]
        exact he
      · exact fresh_set chans nc pr ChanState.taken hpr hfr
      · exact counts_recv trace chans pr Tid.driver _ (by rw [hf]; simp) hct
      · exact altState_skip _ _ _ _ _ rfl rfl haB
      · exact altState_settle _ _ _ _ _ rfl rfl haD
  | successSent r c s hr hc hne hf he =>
    simp only [stepD, he]
    exact ⟨Shape.successSent r c s hr hc hne hf he, hfr, hct, haB, haD⟩
  | bridgeSendingCommand c s hc he =>
    simp only [stepD, he]
    exact ⟨Shape.bridgeSendingCommand c s hc he, hfr, hct, haB, haD⟩
  | commandSent c s cmd2 hc hf =>
    simp only [stepD, hf, SuccessfulClient.finish]
    cases hw : w (Request.StartSession cmd2 []) with
    | some e =>
      simp only [hw, Option.getD]
      refine ⟨Shape.doneFinished _, ?_, ?_, ?_, ?_⟩
      · exact fresh_set chans nc c ChanState.taken hc hfr
      · exact counts_recv trace chans c Tid.driver _ (by rw [hf]; simp) hct
      · exact altState_skip _ _ _ _ _ rfl rfl haB
      · exact altState_settle _ _ _ _ _ rfl rfl haD
    | none =>
      simp only [hw, Option.getD]
      refine ⟨Shape.doneFinished _, ?_, ?_, ?_, ?_⟩
      · exact fresh_set chans nc c ChanState.taken hc hfr
      · exact counts_recv trace chans c Tid.driver _ (by rw [hf]; simp) hct
      · exact altState_skip _ _ _ _ _ rfl rfl haB
      · exact altState_settle _ _ _ _ _ rfl rfl haD
  | doneBlocked res s hs he =>
    simp only [stepD, Option.getD]
    exact ⟨Shape.doneBlocked res s hs he, hfr, hct, haB, haD⟩
  | doneFinished res =>
    simp only [stepD, Option.getD]
    exact ⟨Shape.doneFinished res, hfr, hct, haB, haD⟩
theorem stepB_inv (cfg : JointCfg) (h : Inv cfg) :
    Inv ((stepB cfg).getD cfg) := by
  obtain ⟨hsh, hfr, hct, haB, haD⟩ := h
  obtain ⟨d, b, chans, nc, reads, script, un, cmd, w, trace⟩ := cfg
  dsimp only at hsh hfr hct haB haD
  cases hsh with
  | atStart u cl hu he =>
    simp only [stepB, Option.getD]
    refine ⟨Shape.usernameSent u nc cl un (Nat.lt_succ_of_lt hu)
      (Nat.lt_succ_self nc) (ne_of_lt hu) ?_ ?_, ?_, ?_, ?_, ?_⟩
    · exact setChan_same chans u _
    · dsimp only
      rw [setChan_other _ _ _ _ (ne_of_gt hu)]
      exact hfr nc (le_refl nc)
    · exact fresh_set_alloc chans nc u _ hu hfr
    · exact counts_send trace chans u Tid.bridge _ he hct
    · exact altState_skip _ _ _ _ _ rfl rfl haB
    · exact altState_skip _ _ _ _ _ rfl rfl haD
  | usernameSent u s cl nm hu hs hne hf hse =>
    simp only [stepB, hse]
    exact ⟨Shape.usernameSent u s cl nm hu hs hne hf hse, hfr, hct, haB, haD⟩
  | looping r a hr he =>
    simp only [stepB, he]
    exact ⟨Shape.looping r a hr he, hfr, hct, haB, haD⟩
  | promptSent r pr p pp hr hpr hne hf he =>
    simp only [stepB, hf, Option.getD]
    refine ⟨Shape.bridgeReplying pr p pp hpr ?_, ?_, ?_, ?_, ?_⟩
    · dsimp only
      rw [setChan_other _ _ _ _ (fun hh => hne hh.symm)]
      exact he
    · exact fresh_set chans nc r ChanState.taken hr hfr
    · exact counts_recv trace chans r Tid.bridge _ (by rw [hf]; simp) hct
    · exact altState_fire _ _ _ _ rfl haB
    · exact altState_skip _ _ _ _ _ rfl rfl haD
  | bridgeReplying pr p pp hpr he =>
    cases pp with
    | Input prm secret =>
      cases script with
      | nil =>
        simp only [stepB, bridgeAnswer, Option.getD]
        exact ⟨Shape.bridgeReplying pr p (AuthPrompt.Input prm secret)
          hpr he, hfr, hct, haB, haD⟩
      | cons s2 rest =>
        simp only [stepB, bridgeAnswer, Option.getD]
        refine ⟨Shape.replySent pr nc p (some s2) (Nat.lt_succ_of_lt hpr)
          (Nat.lt_succ_self nc) (ne_of_lt hpr) ?_ ?_, ?_, ?_, ?_, ?_⟩
        · exact setChan_same chans pr _
        · dsimp only
          rw [setChan_other _ _ _ _ (ne_of_gt hpr)]
          exact hfr nc (le_refl nc)
        · exact fresh_set_alloc chans nc pr _ hpr hfr
        · exact counts_send trace chans pr Tid.bridge _ he hct
        · exact altState_settle _ _ _ _ _ rfl rfl haB
        · exact altState_skip _ _ _ _ _ rfl rfl haD
    | Info note =>
      simp only [stepB, bridgeAnswer, Option.getD]
      refine ⟨Shape.replySent pr nc p none (Nat.lt_succ_of_lt hpr)
        (Nat.lt_succ_self nc) (ne_of_lt hpr) ?_ ?_, ?_, ?_, ?_, ?_⟩
      · exact setChan_same chans pr _
      · dsimp only
        rw [setChan_other _ _ _ _ (ne_of_gt hpr)]
        exact hfr nc (le_refl nc)
      · exact fresh_set_alloc chans nc pr _ hpr hfr
      · exact counts_send trace chans pr Tid.bridge _ he hct
      · exact altState_settle _ _ _ _ _ rfl rfl haB
      · exact altState_skip _ _ _ _ _ rfl rfl haD
    | Error note =>
      simp only [stepB, bridgeAnswer, Option.getD]
      refine ⟨Shape.replySent pr nc p none (Nat.lt_succ_of_lt hpr)
        (Nat.lt_succ_self nc) (ne_of_lt hpr) ?_ ?_, ?_, ?_, ?_, ?_⟩
      · exact setChan_same chans pr _
      · dsimp only
        rw [setChan_other _ _ _ _ (ne_of_gt hpr)]
        exact hfr nc (le_refl nc)
      · exact fresh_set_alloc chans nc pr _ hpr hfr
      · exact counts_send trace chans pr Tid.bridge _ he hct
      · exact altState_settle _ _ _ _ _ rfl rfl haB
      · exact altState_skip _ _ _ _ _ rfl rfl haD
  | replySent pr n p ans hpr hn hne hf he =>
    simp only [stepB, he]
    exact ⟨Shape.replySent pr n p ans hpr hn hne hf he, hfr, hct, haB, haD⟩
  | successSent r c s hr hc hne hf he =>
    simp only [stepB, hf, Option.getD]
    refine ⟨Shape.bridgeSendingCommand c s hc ?_, ?_, ?_, ?_, ?_⟩
    · dsimp only
      rw [setChan_other _ _ _ _ (fun hh => hne hh.symm)]
      exact he
    · exact fresh_set chans nc r ChanState.taken hr hfr
    · exact counts_recv trace chans r Tid.bridge _ (by rw [hf]; simp) hct
    · exact altState_skip _ _ _ _ _ rfl rfl haB
    · exact altState_skip _ _ _ _ _ rfl rfl haD
  | bridgeSendingCommand c s hc he =>
    simp only [stepB, Option.getD]
    refine ⟨Shape.commandSent c s cmd hc ?_, ?_, ?_, ?_, ?_⟩
    · exact setChan_same chans c _
    · exact fresh_set chans nc c _ hc hfr
    · exact counts_send trace chans c Tid.bridge _ he hct
    · exact altState_skip _ _ _ _ _ rfl rfl haB
    · exact altState_skip _ _ _ _ _ rfl rfl haD
  | commandSent c s cmd2 hc hf =>
    simp only [stepB, Option.getD]
    exact ⟨Shape.commandSent c s cmd2 hc hf, hfr, hct, haB, haD⟩
  | doneBlocked res s hs he =>
    simp only [stepB, he]
    exact ⟨Shape.doneBlocked res s hs he, hfr, hct, haB, haD⟩
  | doneFinished res =>
    simp only [stepB, Option.getD]
    exact ⟨Shape.doneFinished res, hfr, hct, haB, haD⟩
/-- Helper: the initial configuration satisfies the invariant. -/
theorem initCfg_inv (stream : Nat) (username : String)
    (command : List String) (write : WriteOracle)
    (reads : List (Except CodecError Response)) (script : List String) :
    Inv (initCfg stream username command write reads script) := by
  refine ⟨Shape.atStart 0 ⟨stream⟩ Nat.zero_lt_one rfl, ?_, ?_, rfl, rfl⟩
  · intro c hc
    rfl
  · intro c
    rfl

/-- Helper: every schedule preserves the invariant. -/
theorem runSched_inv (sched : List Tid) :
    ∀ (cfg : JointCfg), Inv cfg → Inv (runSched cfg sched) := by
  induction sched with
  | nil =>
    intro cfg h
    exact h
  | cons t rest ih =>
    intro cfg h
    have h1 : Inv (stepOr cfg t) := by
      cases t with
      | driver => exact stepD_inv cfg h
      | bridge => exact stepB_inv cfg h
    exact ih _ h1

/-- Helper: the invariant bounds every channel's send count by one. -/
theorem inv_sendCount (cfg : JointCfg) (h : Inv cfg) :
    ∀ c, sendCount cfg.trace c ≤ 1 := by
  intro c
  rw [h.counts c]
  by_cases hc : cfg.chans c = ChanState.empty <;> simp [hc]

/-- C4: in every interleaved run of the session driver
(`ClientManager::run`) and the interaction bridge (`UiManager::run`),
under every scheduler choice, every one-shot channel carries at most
one send; the bridge never receives two `Prompt` state packets without
sending a reply in between (the prompt-recv/reply-send alternation
automaton never dies); and the driver never sends a second state packet
before receiving and consuming the reply to the previous one (the
state-send/reply-recv automaton never dies). -/
theorem C4_staircase_alternation (stream : Nat) (username : String)
    (command : List String) (write : WriteOracle)
    (reads : List (Except CodecError Response)) (script : List String)
    (sched : List Tid) :
    (∀ c, sendCount
      (runSched (initCfg stream username command write reads script)
        sched).trace c ≤ 1) ∧
    (altState isPromptRecv isReplySend
      (runSched (initCfg stream username command write reads script)
        sched).trace).isSome = true ∧
    (altState isStateSend isReplyRecv
      (runSched (initCfg stream username command write reads script)
        sched).trace).isSome = true := by
  have h := runSched_inv sched _
    (initCfg_inv stream username command write reads script)
  refine ⟨inv_sendCount _ h, ?_, ?_⟩
  · rw [h.altB]
    rfl
  · rw [h.altD]
    rfl
end Cliffcrown
